import Mathlib

set_option maxRecDepth 16384

/-!
Shallow embedding of the `imagen-3.0-generate-google-mcp-server` repository
(two revisions of `index.ts`: the desktop profile `src/src/index.ts`, called
profile A below, and the temp-staging profile `src/unnamed/part_001`, called
profile B).  Strings are modelled as Lean `String` (lists of characters);
the Node `path` module is modelled with `path.win32` semantics, since both
revisions force Windows-style paths throughout ("Force Windows-style path
for the desktop", `USERPROFILE`, backslash coercion).  Filesystem state is
passed explicitly as an existence predicate; the external generation
service's response is passed as an explicit argument.
-/

/-- One character of a path is a separator (win32: `/` or `\`). -/
def isSep (c : Char) : Bool := c = '/' || c = '\\'

/-- Models `s.replace(/\//g, "\\")` — convert every forward slash to a backslash. -/
def mapSlashes (l : List Char) : List Char :=
  l.map (fun c => if c = '/' then '\\' else c)

/-- String-level slash conversion, for reasoning about `joinW`. -/
def msStr (s : String) : String := ⟨mapSlashes s.data⟩

/-- Strip a fixed leading character sequence if present (one occurrence,
anchored), else return the input unchanged.  Models an anchored
non-global `String.prototype.replace(/^pre/, '')`. -/
def stripLead (pre l : List Char) : List Char :=
  if pre.isPrefixOf l then l.drop pre.length else l

/-- Models `filePath.replace(/^(\/app\/|\/root\/)/, "")` from profile A
(`src/src/index.ts` line 35): strip a leading `/app/` or `/root/`. -/
def stripAppRoot (l : List Char) : List Char :=
  if ("/app/".data).isPrefixOf l then l.drop 5
  else if ("/root/".data).isPrefixOf l then l.drop 6
  else l

/-- Models `filePath.replace(/\\\\/g, "\\")` from profile B
(`src/unnamed/part_001` line 26): a JavaScript global replace of each
backslash pair by a single backslash, scanning left to right without
rescanning the replacement. -/
def collapsePairs : List Char → List Char
  | '\\' :: '\\' :: rest => '\\' :: collapsePairs rest
  | c :: rest => c :: collapsePairs rest
  | [] => []

/-- An ASCII letter, as accepted for a win32 drive root. -/
def isDriveLetter (c : Char) : Bool :=
  ('a' ≤ c && c ≤ 'z') || ('A' ≤ c && c ≤ 'Z')

/-- Models `path.win32.isAbsolute`: a leading separator, or a drive root
`X:` followed by a separator (which requires at least three characters). -/
def isAbsW : List Char → Bool
  | c :: d :: e :: _ => isSep c || (isDriveLetter c && d = ':' && isSep e)
  | c :: _ => isSep c
  | [] => false

/-- Model of the two-argument `path.win32.join` as used by this repository:
an empty part is ignored, otherwise the parts are glued with `\` and
forward slashes are normalized to backslashes.  (Dot-segment and duplicate
separator collapsing of the real `path.win32.join` are not exercised by
the repository's call sites and are not modelled.) -/
def joinW (a b : String) : String :=
  if a.data.isEmpty then b
  else if b.data.isEmpty then a
  else ⟨mapSlashes (a.data ++ '\\' :: b.data)⟩

/-- Models `path.join(getWindowsDesktopPath(), "AI-Generated-Images")` from profile A
(lines 15-30): the `USERPROFILE || os.homedir()` value is passed in as
`userProfile`. -/
def desktopPathA (userProfile : String) : String :=
  joinW (joinW userProfile "Desktop") "AI-Generated-Images"

/-- Function `normalizeFilePath` of profile A (`src/src/index.ts` lines 33-45):
strip `/app/` or `/root/`, join onto the desktop base when relative,
then convert all forward slashes to backslashes. -/
def normalizeFilePathA (userProfile p : String) : String :=
  let s1 := stripAppRoot p.data
  let s2 := if isAbsW s1 then s1 else (joinW (desktopPathA userProfile) ⟨s1⟩).data
  ⟨mapSlashes s2⟩

/-- Function `getWebPath` of profile A (`src/src/index.ts` lines 48-53): normalize,
then prefix `file://`.  (The code's own comment announces a
backslash-to-forward-slash conversion, but the returned template performs
none.) -/
def getWebPath (userProfile p : String) : String :=
  "file://" ++ normalizeFilePathA userProfile p

/-- Function `normalizeFilePath` of profile B (`src/unnamed/part_001` lines 15-29):
strip `/app/`, slashes to backslashes, strip `file://`, collapse
backslash pairs. -/
def normalizeFilePathB (p : String) : String :=
  let s1 := stripLead "/app/".data p.data
  let s2 := mapSlashes s1
  let s3 := stripLead "file://".data s2
  ⟨collapsePairs s3⟩

/-- The decimal digit characters `0`-`9`; used to model JavaScript's
number-to-string conversion in template literals. -/
def digitChar10 : Nat → Char
  | 0 => '0' | 1 => '1' | 2 => '2' | 3 => '3' | 4 => '4'
  | 5 => '5' | 6 => '6' | 7 => '7' | 8 => '8' | 9 => '9'
  | _ => '0'

/-- Fuel-driven decimal rendering (most significant digit first). -/
def natStrAux : Nat → Nat → List Char
  | 0, _ => []
  | fuel + 1, n => if n = 0 then [] else natStrAux fuel (n / 10) ++ [digitChar10 (n % 10)]

/-- JavaScript number-to-string for a nonnegative integer (`${idx}`,
`${width}`, `${height}` in the template literals). -/
def natStr (n : Nat) : String :=
  if n = 0 then "0" else ⟨natStrAux (n + 1) n⟩

/-- The character class `[a-z0-9]` of the sanitization regex. -/
def isLowerAlnum (c : Char) : Bool :=
  (97 ≤ c.toNat && c.toNat ≤ 122) || (48 ≤ c.toNat && c.toNat ≤ 57)

/-- Models `prompt.toLowerCase().replace(/[^a-z0-9]/g, "-").slice(0, 30)`
(profile A line 189, profile B line 187). -/
def sanitize (s : String) : String :=
  ⟨((s.data.map Char.toLower).map fun c => if isLowerAlnum c then c else '-').take 30⟩

/-- Models the check `!generatedImage.image?.imageBytes` (both profiles): an entry is
written only when it carries a non-empty base64 payload.  The two
optional levels (`image`, `imageBytes`) are collapsed into one
`Option String`; a present empty string is falsy in JavaScript and is
also skipped. -/
def hasPayload : Option String → Bool
  | none => false
  | some s => !s.data.isEmpty

/-- The write loop of `generate_images` (profile A lines 180-202, profile B
lines 178-196): for each entry carrying a payload, one `writeFile` of the
decoded bytes is performed at `mk idx` and `idx` advances; entries without
payload are skipped without advancing `idx`.  The returned list is the
sequence of performed writes as (path, payload) pairs, in order. -/
def writeImages (mk : Nat → String) : List (Option String) → Nat → List (String × String)
  | [], _ => []
  | e :: rest, idx =>
    match e with
    | some s =>
      if s.data.isEmpty then writeImages mk rest idx
      else (mk idx, s) :: writeImages mk rest (idx + 1)
    | none => writeImages mk rest idx

/-- Number of service entries carrying a non-empty payload. -/
def countPayload (entries : List (Option String)) : Nat :=
  (entries.filter hasPayload).length

/-- Models `path.join(outputDir, sanitizedPrompt-timestamp-idx.png)`
(profile A lines 190-193, profile B lines 188-191). -/
def mkFilename (outputDir sanitized timestamp : String) (idx : Nat) : String :=
  joinW outputDir (sanitized ++ "-" ++ timestamp ++ "-" ++ natStr idx ++ ".png")

/-- Result record of `generate_images` in profile B (lines 198-203). -/
structure GenResultB where
  message : String
  files : List String

/-- Result record of `generate_images` in profile A (lines 208-216). -/
structure GenResultA where
  message : String
  files : List String
  storageDir : String
  desktopDir : String
  userProfile : String

/-- The `generate_images` handler of profile B (`src/unnamed/part_001`
lines 138-208).  `timestamp` is the per-batch `new Date().toISOString()`
value after `[:.]` replacement; `generatedImages` is the service
response's optional entry collection (`undefined` becomes `none`; an
empty array is a present empty list).  `numberOfImages` is forwarded to
the external service only, so it does not occur in the result.  A thrown
`McpError(2, m)` is modelled as `Except.error` of the message produced by
the surrounding `catch`, which re-wraps it as
`Failed to generate images: m`. -/
def generateImagesB (fullOutputDir prompt timestamp : String) (numberOfImages : Nat)
    (generatedImages : Option (List (Option String))) : Except String GenResultB :=
  match generatedImages with
  | none => Except.error "Failed to generate images: No images were generated"
  | some entries =>
    let writes := writeImages (fun idx => mkFilename fullOutputDir (sanitize prompt) timestamp idx) entries 1
    let files := writes.map Prod.fst
    Except.ok { message := "Successfully generated " ++ natStr files.length ++ " images"
                files := files }

/-- The `generate_images` handler of profile A (`src/src/index.ts` lines
138-221).  The output directory is the desktop base, plus the optional
category subfolder; each pushed path is additionally forced to Windows
form by `filename.replace(/\//g, '\\')` (line 197). -/
def generateImagesA (userProfile category prompt timestamp : String) (numberOfImages : Nat)
    (generatedImages : Option (List (Option String))) : Except String GenResultA :=
  let baseDir := desktopPathA userProfile
  let outputDir := if category.data.isEmpty then baseDir else joinW baseDir category
  match generatedImages with
  | none => Except.error "Failed to generate images: No images were generated"
  | some entries =>
    let writes := writeImages
      (fun idx => ⟨mapSlashes (mkFilename outputDir (sanitize prompt) timestamp idx).data⟩) entries 1
    let files := writes.map Prod.fst
    Except.ok { message := "Successfully generated " ++ natStr files.length ++
                  " images on your Windows Desktop in AI-Generated-Images" ++
                  (if category.data.isEmpty then "" else "\\" ++ category)
                files := files
                storageDir := ⟨mapSlashes outputDir.data⟩
                desktopDir := ⟨mapSlashes (desktopPathA userProfile).data⟩
                userProfile := userProfile }

/-- Models `Array.prototype.join` with a newline separator over the rendered tag strings. -/
def strJoin (sep : String) : List String → String
  | [] => ""
  | [x] => x
  | x :: xs => x ++ sep ++ strJoin sep xs

/-- The non-gallery tag template of profile A (line 280):
`<img src="${webPath}" width="${width}" height="${height}" alt="Generated image" style="margin: 10px;" />`. -/
def imgTagPlain (w h : Nat) (webPath : String) : String :=
  "<img src=\"" ++ webPath ++ "\" width=\"" ++ natStr w ++ "\" height=\"" ++ natStr h ++
    "\" alt=\"Generated image\" style=\"margin: 10px;\" />"

/-- Constant part of profile A's gallery item template (lines 273-277)
before the interpolated `webPath`. -/
def galleryItemPre : String :=
  "\n            <div class=\"image-container\">\n              <img src=\""

/-- Constant part of profile A's gallery item template after the
interpolated `webPath`: only `alt` and `loading` attributes follow. -/
def galleryItemMid : String :=
  "\" alt=\"Generated image\" loading=\"lazy\" />\n            </div>\n          "

/-- Profile A's gallery CSS template (lines 234-259) up to the
interpolated `${width}`. -/
def sty1 : String :=
  "\n        <style>\n          .image-gallery \x7b\n            display: flex;\n            flex-wrap: wrap;\n            gap: 20px;\n            justify-content: center;\n            padding: 20px;\n          \x7d\n          .image-container \x7b\n            box-shadow: 0 4px 8px rgba(0,0,0,0.1);\n            border-radius: 8px;\n            overflow: hidden;\n            transition: transform 0.3s ease;\n          \x7d\n          .image-container:hover \x7b\n            transform: scale(1.05);\n          \x7d\n          .image-container img \x7b\n            display: block;\n            width: "

/-- Profile A's gallery CSS template between `${width}` and `${height}`. -/
def sty2 : String := "px;\n            height: "

/-- Profile A's gallery CSS template after `${height}`. -/
def sty3 : String := "px;\n            object-fit: contain;\n          \x7d\n        </style>\n      "

/-- Value `galleryStyle` of profile A for `gallery = true` (lines 234-259). -/
def galleryStyleStr (w h : Nat) : String :=
  sty1 ++ natStr w ++ sty2 ++ natStr h ++ sty3

/-- The `htmlTags` array of profile A (lines 261-281): each path is
normalized (`absolutePath`), then rendered through `getWebPath` (which
normalizes once more); gallery mode wraps the image in a container div,
non-gallery mode emits a plain sized tag.  The `fs.existsSync` check only
produces a console warning and does not affect the rendered tags. -/
def htmlTagsA (userProfile : String) (w h : Nat) (gallery : Bool) (imagePaths : List String) : List String :=
  imagePaths.map fun p =>
    let webPath := getWebPath userProfile (normalizeFilePathA userProfile p)
    if gallery then galleryItemPre ++ webPath ++ galleryItemMid
    else imgTagPlain w h webPath

/-- Result of `create_image_html` in profile A (lines 287-294), together
with the `console.warn` lines emitted for missing files (modelled in
`warnings`, one entry per referenced path whose normalized form does not
exist). -/
structure HtmlResultA where
  html : String
  message : String
  storageLocation : String
  absolutePaths : List String
  warnings : List String

/-- The `create_image_html` handler of profile A (`src/src/index.ts`
lines 223-299).  `fsExists` is the state of `fs.existsSync`.  No path in
this handler is written or read, so the handler is total: a missing file
only adds a warning. -/
def createImageHtmlA (userProfile : String) (fsExists : String → Bool)
    (imagePaths : List String) (w h : Nat) (gallery : Bool) : HtmlResultA :=
  let tags := htmlTagsA userProfile w h gallery imagePaths
  let html := if gallery then
      galleryStyleStr w h ++ "<div class=\"image-gallery\">" ++ strJoin "\n" tags ++ "</div>"
    else strJoin "\n" tags
  { html := html
    message := "Created HTML gallery with " ++ natStr imagePaths.length ++ " images"
    storageLocation := desktopPathA userProfile
    absolutePaths := imagePaths.map (normalizeFilePathA userProfile)
    warnings := imagePaths.filterMap fun p =>
      let abs := normalizeFilePathA userProfile p
      if fsExists abs then none else some ("Warning: Image file not found: " ++ abs) }

/-- Models `path.basename` (win32), as used by the `copyToTemp` of profile B: the
segment after the last separator. -/
def basenameW (p : String) : String :=
  ⟨((p.data.reverse.takeWhile fun c => !isSep c)).reverse⟩

/-- Function `copyToTemp` of profile B (lines 45-50): `fs.copyFileSync` throws an
`ENOENT` error when the source file does not exist; on success the staged
path `path.join(tempDir, basename source)` is returned. -/
def copyToTemp (fsExists : String → Bool) (tempDir sourcePath : String) : Except String String :=
  if fsExists sourcePath then Except.ok (joinW tempDir (basenameW sourcePath))
  else Except.error ("ENOENT: no such file or directory, copyfile " ++ sourcePath)

/-- The tag template of profile B (line 233):
`<img src="file://${normalizedPath}" width="${width}" height="${height}" alt="Generated image" style="margin: 10px;" />`. -/
def imgTagB (w h : Nat) (p : String) : String :=
  "<img src=\"file://" ++ normalizeFilePathB p ++ "\" width=\"" ++ natStr w ++ "\" height=\"" ++
    natStr h ++ "\" alt=\"Generated image\" style=\"margin: 10px;\" />"

/-- Result of `create_image_html` in profile B (lines 236-243). -/
structure HtmlResultB where
  html : String
  message : String
  tempPaths : List String

/-- The `create_image_html` handler of profile B (`src/unnamed/part_001`
lines 210-248).  With `useTemp = true` every source path is first
normalized and copied into `tempDir` (`Promise.all` fails as soon as one
copy fails, caught and re-wrapped by the handler's `catch`); the staged
paths are then rendered.  With `useTemp = false` the input paths are
rendered directly, with no existence check at all. -/
def createImageHtmlB (fsExists : String → Bool) (tempDir : String)
    (imagePaths : List String) (w h : Nat) (useTemp : Bool) : Except String HtmlResultB :=
  if useTemp then
    match imagePaths.mapM (fun p => copyToTemp fsExists tempDir (normalizeFilePathB p)) with
    | Except.error e => Except.error ("Failed to create HTML: " ++ e)
    | Except.ok tempPaths =>
      Except.ok { html := strJoin "\n" (tempPaths.map (imgTagB w h))
                  message := "Created HTML tags for " ++ natStr imagePaths.length ++ " images"
                  tempPaths := tempPaths }
  else
    Except.ok { html := strJoin "\n" (imagePaths.map (imgTagB w h))
                message := "Created HTML tags for " ++ natStr imagePaths.length ++ " images"
                tempPaths := [] }

/-- Number of occurrences of `pat` as a contiguous subsequence of `l`
(all start positions counted). -/
def occCount (pat : List Char) : List Char → Nat
  | [] => if pat.isEmpty then 1 else 0
  | l@(_ :: rest) => (if pat.isPrefixOf l then 1 else 0) + occCount pat rest

theorem strExt {a b : String} (h : a.data = b.data) : a = b := String.ext h

theorem strData_append (a b : String) : (a ++ b).data = a.data ++ b.data := by
  cases a; cases b; rfl

theorem noSlash_mapSlashes (l : List Char) : '/' ∉ mapSlashes l := by
  intro h
  rcases List.mem_map.1 h with ⟨c, _, hc⟩
  by_cases h' : c = '/' <;> simp [h'] at hc

theorem mapSlashes_of_noSlash {l : List Char} (h : '/' ∉ l) : mapSlashes l = l := by
  induction l with
  | nil => rfl
  | cons c rest ih =>
    have hc : c ≠ '/' := fun hh => h (hh ▸ List.mem_cons_self c rest)
    simp only [mapSlashes, List.map_cons] at *
    rw [if_neg hc]
    have := ih (fun hh => h (List.mem_cons_of_mem c hh))
    simpa [mapSlashes] using this

theorem mapSlashes_append (a b : List Char) :
    mapSlashes (a ++ b) = mapSlashes a ++ mapSlashes b := by
  simp [mapSlashes]

theorem mapSlashes_cons (c : Char) (l : List Char) :
    mapSlashes (c :: l) = (if c = '/' then '\\' else c) :: mapSlashes l := rfl

theorem mapSlashes_idem (l : List Char) : mapSlashes (mapSlashes l) = mapSlashes l :=
  mapSlashes_of_noSlash (noSlash_mapSlashes l)

theorem isAbsW_ne_nil {l : List Char} (h : isAbsW l = true) : l ≠ [] := by
  intro he; subst he; simp [isAbsW] at h

theorem isAbsW_append {l : List Char} (m : List Char) (h : isAbsW l = true) :
    isAbsW (l ++ m) = true := by
  match l with
  | [] => simp [isAbsW] at h
  | [c] =>
    simp only [isAbsW] at h
    match m with
    | [] => simpa [isAbsW] using h
    | [d] => simp [isAbsW, h]
    | d :: e :: t => simp [isAbsW, h]
  | [c, d] =>
    simp only [isAbsW] at h
    match m with
    | [] => simpa [isAbsW] using h
    | e :: t => simp [isAbsW, h]
  | c :: d :: e :: t =>
    simpa [isAbsW] using h

theorem isSep_mapSlashes {c : Char} (h : isSep c = true) :
    isSep (if c = '/' then '\\' else c) = true := by
  by_cases hc : c = '/' <;> simp [hc, isSep, h] at * <;> simp [h]

theorem isAbsW_mapSlashes {l : List Char} (h : isAbsW l = true) :
    isAbsW (mapSlashes l) = true := by
  match l with
  | [] => simp [isAbsW] at h
  | [c] =>
    simp only [isAbsW] at h ⊢
    rw [mapSlashes_cons]
    simp only [mapSlashes, List.map_nil, isAbsW]
    exact isSep_mapSlashes h
  | [c, d] =>
    simp only [isAbsW] at h
    rw [mapSlashes_cons, mapSlashes_cons]
    simp only [mapSlashes, List.map_nil, isAbsW]
    exact isSep_mapSlashes h
  | c :: d :: e :: t =>
    simp only [isAbsW, Bool.or_eq_true] at h
    rw [mapSlashes_cons, mapSlashes_cons, mapSlashes_cons]
    simp only [isAbsW, Bool.or_eq_true]
    rcases h with h | h
    · exact Or.inl (isSep_mapSlashes h)
    · simp only [Bool.and_eq_true, decide_eq_true_eq] at h
      obtain ⟨⟨hc, hd⟩, he⟩ := h
      have hcs : c ≠ '/' := by
        intro hh; subst hh; simp [isDriveLetter] at hc
      have hds : d ≠ '/' := by intro hh; rw [hh] at hd; exact absurd hd (by decide)
      right
      rw [if_neg hcs, if_neg hds]
      simp only [Bool.and_eq_true, decide_eq_true_eq]
      exact ⟨⟨hc, hd⟩, isSep_mapSlashes he⟩

theorem isAbsW_joinW {a : String} (b : String) (h : isAbsW a.data = true) :
    isAbsW (joinW a b).data = true := by
  unfold joinW
  have hne : a.data.isEmpty = false := by
    cases ha : a.data with
    | nil => exact absurd rfl (by rw [ha] at h; exact isAbsW_ne_nil h)
    | cons c r => rfl
  rw [if_neg (by simp [hne])]
  by_cases hb : b.data.isEmpty
  · rw [if_pos hb]; exact h
  · rw [if_neg hb]
    exact isAbsW_mapSlashes (isAbsW_append _ h)

theorem isAbsW_desktopPathA {up : String} (h : isAbsW up.data = true) :
    isAbsW (desktopPathA up).data = true :=
  isAbsW_joinW _ (isAbsW_joinW _ h)

theorem isPrefixOf_false_of_head_ne {c d : Char} {t l : List Char} (h : c ≠ d) :
    (c :: t).isPrefixOf (d :: l) = false := by
  simp [List.isPrefixOf, h]

theorem stripAppRoot_of_noSlash {l : List Char} (h : '/' ∉ l) : stripAppRoot l = l := by
  unfold stripAppRoot
  cases l with
  | nil => rfl
  | cons c rest =>
    have hc : ('/' : Char) ≠ c := fun hh => h (hh ▸ List.mem_cons_self c rest)
    rw [show ("/app/".data) = '/' :: "app/".data from rfl,
        isPrefixOf_false_of_head_ne hc,
        show ("/root/".data) = '/' :: "root/".data from rfl,
        isPrefixOf_false_of_head_ne hc]
    simp

theorem noSlash_normalizeFilePathA (up p : String) :
    '/' ∉ (normalizeFilePathA up p).data := by
  unfold normalizeFilePathA
  exact noSlash_mapSlashes _

theorem isAbsW_normalizeFilePathA {up : String} (p : String) (h : isAbsW up.data = true) :
    isAbsW (normalizeFilePathA up p).data = true := by
  unfold normalizeFilePathA
  by_cases habs : isAbsW (stripAppRoot p.data) = true
  · simp only [habs, if_pos]
    exact isAbsW_mapSlashes habs
  · simp only [habs, Bool.false_eq_true, if_false]
    exact isAbsW_mapSlashes (isAbsW_joinW _ (isAbsW_desktopPathA h))

/-- Idempotency of profile A's `normalizeFilePath`: the first pass leaves
no forward slash and an absolute path, so a second pass strips nothing,
joins nothing, and replaces nothing. -/
theorem normalizeFilePathA_idem {up : String} (p : String) (h : isAbsW up.data = true) :
    normalizeFilePathA up (normalizeFilePathA up p) = normalizeFilePathA up p := by
  have hq := noSlash_normalizeFilePathA up p
  have habs := isAbsW_normalizeFilePathA p h
  set q := normalizeFilePathA up p with hqdef
  have h1 : stripAppRoot q.data = q.data := stripAppRoot_of_noSlash hq
  apply strExt
  show (normalizeFilePathA up q).data = q.data
  unfold normalizeFilePathA
  rw [h1]
  simp only [habs, if_pos]
  exact mapSlashes_of_noSlash hq

theorem digitChar10_toNat {d : Nat} (h : d < 10) : (digitChar10 d).toNat = 48 + d := by
  interval_cases d <;> decide

theorem digitChar10_mem (d : Nat) :
    digitChar10 d ∈ ['0', '1', '2', '3', '4', '5', '6', '7', '8', '9'] := by
  match d with
  | 0 => decide
  | 1 => decide
  | 2 => decide
  | 3 => decide
  | 4 => decide
  | 5 => decide
  | 6 => decide
  | 7 => decide
  | 8 => decide
  | 9 => decide
  | n + 10 => left

theorem digitChar10_ne_slash (d : Nat) : digitChar10 d ≠ '/' := by
  have := digitChar10_mem d
  intro h
  rw [h] at this
  simp at this

theorem natStrAux_eq_digits : ∀ (fuel n : Nat), n < fuel →
    natStrAux fuel n = ((Nat.digits 10 n).map digitChar10).reverse := by
  intro fuel
  induction fuel with
  | zero => intro n h; omega
  | succ f ih =>
    intro n h
    by_cases hn : n = 0
    · subst hn; simp [natStrAux]
    · have hd : Nat.digits 10 n = n % 10 :: Nat.digits 10 (n / 10) :=
        Nat.digits_def' (by norm_num) (Nat.pos_of_ne_zero hn)
      have hlt : n / 10 < f := by
        have h1 : n / 10 < n := Nat.div_lt_self (Nat.pos_of_ne_zero hn) (by norm_num)
        omega
      simp only [natStrAux, hn, if_false]
      rw [ih _ hlt, hd]
      simp

theorem natStr_ne_zero_eq {n : Nat} (h : n ≠ 0) :
    (natStr n).data = ((Nat.digits 10 n).map digitChar10).reverse := by
  unfold natStr
  rw [if_neg h]
  exact natStrAux_eq_digits (n + 1) n (Nat.lt_succ_self n)

theorem map_digitChar10_inj : ∀ (l1 l2 : List Nat), (∀ x ∈ l1, x < 10) → (∀ x ∈ l2, x < 10) →
    l1.map digitChar10 = l2.map digitChar10 → l1 = l2 := by
  intro l1
  induction l1 with
  | nil =>
    intro l2 _ _ h
    cases l2 with
    | nil => rfl
    | cons b bs => simp at h
  | cons a as ih =>
    intro l2 h1 h2 h
    cases l2 with
    | nil => simp at h
    | cons b bs =>
      simp only [List.map_cons, List.cons.injEq] at h
      obtain ⟨hab, htl⟩ := h
      have ha : a < 10 := h1 a (List.mem_cons_self a as)
      have hb : b < 10 := h2 b (List.mem_cons_self b bs)
      have : (48 : Nat) + a = 48 + b := by
        rw [← digitChar10_toNat ha, ← digitChar10_toNat hb, hab]
      have hab2 : a = b := by omega
      rw [hab2, ih bs (fun x hx => h1 x (List.mem_cons_of_mem a hx))
        (fun x hx => h2 x (List.mem_cons_of_mem b hx)) htl]

theorem natStr_inj : Function.Injective natStr := by
  intro m n h
  by_cases hm : m = 0 <;> by_cases hn : n = 0
  · omega
  · exfalso
    subst hm
    have hd := natStr_ne_zero_eq hn
    have h0 : (natStr 0).data = ['0'] := rfl
    rw [h] at h0
    rw [hd] at h0
    have : (Nat.digits 10 n).map digitChar10 = ['0'] := by
      have := congrArg List.reverse h0
      simpa using this
    have h10 : Nat.digits 10 n = [0] := by
      have hlt : ∀ x ∈ Nat.digits 10 n, x < 10 := fun x hx => Nat.digits_lt_base (by norm_num) hx
      have := map_digitChar10_inj (Nat.digits 10 n) [0] hlt (by simp) (by simpa using this)
      simpa using this
    have := Nat.ofDigits_digits 10 n
    rw [h10] at this
    simp [Nat.ofDigits] at this
    omega
  · exfalso
    subst hn
    have hd := natStr_ne_zero_eq hm
    have h0 : (natStr 0).data = ['0'] := rfl
    rw [← h] at h0
    rw [hd] at h0
    have : (Nat.digits 10 m).map digitChar10 = ['0'] := by
      have := congrArg List.reverse h0
      simpa using this
    have h10 : Nat.digits 10 m = [0] := by
      have hlt : ∀ x ∈ Nat.digits 10 m, x < 10 := fun x hx => Nat.digits_lt_base (by norm_num) hx
      have := map_digitChar10_inj (Nat.digits 10 m) [0] hlt (by simp) (by simpa using this)
      simpa using this
    have := Nat.ofDigits_digits 10 m
    rw [h10] at this
    simp [Nat.ofDigits] at this
    omega
  · have hdm := natStr_ne_zero_eq hm
    have hdn := natStr_ne_zero_eq hn
    have : ((Nat.digits 10 m).map digitChar10).reverse = ((Nat.digits 10 n).map digitChar10).reverse := by
      rw [← hdm, ← hdn, h]
    have hmap : (Nat.digits 10 m).map digitChar10 = (Nat.digits 10 n).map digitChar10 := by
      have := congrArg List.reverse this
      simpa using this
    have hdig : Nat.digits 10 m = Nat.digits 10 n :=
      map_digitChar10_inj _ _ (fun x hx => Nat.digits_lt_base (by norm_num) hx)
        (fun x hx => Nat.digits_lt_base (by norm_num) hx) hmap
    have := congrArg (Nat.ofDigits 10) hdig
    rwa [Nat.ofDigits_digits, Nat.ofDigits_digits] at this

theorem noSlash_natStr (n : Nat) : '/' ∉ (natStr n).data := by
  by_cases hn : n = 0
  · subst hn; decide
  · rw [natStr_ne_zero_eq hn]
    intro h
    rw [List.mem_reverse] at h
    rcases List.mem_map.1 h with ⟨d, _, hd⟩
    exact digitChar10_ne_slash d hd

theorem writeImages_fst (mk : Nat → String) :
    ∀ (entries : List (Option String)) (idx : Nat),
      (writeImages mk entries idx).map Prod.fst =
        (List.range (countPayload entries)).map (fun i => mk (idx + i)) := by
  intro entries
  induction entries with
  | nil => intro idx; simp [writeImages, countPayload]
  | cons e rest ih =>
    intro idx
    match e with
    | none =>
      simp only [writeImages]
      rw [ih idx]
      simp [countPayload, hasPayload]
    | some s =>
      by_cases hs : s.data.isEmpty
      · simp only [writeImages, hs, if_true]
        rw [ih idx]
        have : hasPayload (some s) = false := by simp [hasPayload, hs]
        simp [countPayload, this]
      · simp only [writeImages, hs, Bool.false_eq_true, if_false]
        have hp : hasPayload (some s) = true := by simp [hasPayload, hs]
        have hc : countPayload (some s :: rest) = countPayload rest + 1 := by
          simp [countPayload, hp]
        rw [hc, List.range_succ_eq_map]
        simp only [List.map_cons, List.map_map]
        rw [ih (idx + 1)]
        have hfun : (fun i => mk (idx + 1 + i)) = ((fun i => mk (idx + i)) ∘ Nat.succ) := by
          funext i
          simp only [Function.comp_apply]
          congr 1
          omega
        rw [hfun, Nat.add_zero]

theorem writeImages_length (mk : Nat → String) (entries : List (Option String)) (idx : Nat) :
    (writeImages mk entries idx).length = countPayload entries := by
  have := congrArg List.length (writeImages_fst mk entries idx)
  simpa using this

theorem strAppend_cancel_left {a b c : String} (h : a ++ b = a ++ c) : b = c := by
  apply strExt
  have := congrArg String.data h
  rw [strData_append, strData_append] at this
  exact List.append_cancel_left this

theorem strAppend_cancel_right {a b c : String} (h : a ++ c = b ++ c) : a = b := by
  apply strExt
  have := congrArg String.data h
  rw [strData_append, strData_append] at this
  exact List.append_cancel_right this

theorem msStr_append (a b : String) : msStr (a ++ b) = msStr a ++ msStr b := by
  apply strExt
  show mapSlashes (a ++ b).data = (msStr a ++ msStr b).data
  rw [strData_append, mapSlashes_append, strData_append]
  rfl

theorem msStr_natStr (n : Nat) : msStr (natStr n) = natStr n :=
  strExt (mapSlashes_of_noSlash (noSlash_natStr n))

theorem msStr_msStr (s : String) : msStr (msStr s) = msStr s :=
  strExt (mapSlashes_idem s.data)

theorem inner_png_ne_empty (san ts : String) (i : Nat) :
    (san ++ "-" ++ ts ++ "-" ++ natStr i ++ ".png").data.isEmpty = false := by
  have : (san ++ "-" ++ ts ++ "-" ++ natStr i ++ ".png").data =
      (san ++ "-" ++ ts ++ "-" ++ natStr i).data ++ ".png".data := strData_append _ _
  rw [this]
  cases hx : (san ++ "-" ++ ts ++ "-" ++ natStr i).data <;> rfl

theorem inner_png_inj {san ts : String} {i j : Nat}
    (h : san ++ "-" ++ ts ++ "-" ++ natStr i ++ ".png" =
         san ++ "-" ++ ts ++ "-" ++ natStr j ++ ".png") : i = j := by
  have h1 := strAppend_cancel_right h
  have h2 := strAppend_cancel_left h1
  exact natStr_inj h2

theorem msStr_inner_inj {san ts : String} {i j : Nat}
    (h : msStr (san ++ "-" ++ ts ++ "-" ++ natStr i ++ ".png") =
         msStr (san ++ "-" ++ ts ++ "-" ++ natStr j ++ ".png")) : i = j := by
  simp only [msStr_append, msStr_natStr] at h
  have h1 := strAppend_cancel_right h
  have h2 := strAppend_cancel_left h1
  exact natStr_inj h2

theorem joinW_msStr_case {dir b c : String} (hdir : ¬ dir.data.isEmpty = true)
    (hb : b.data.isEmpty = false) (hc : c.data.isEmpty = false)
    (h : joinW dir b = joinW dir c) : msStr b = msStr c := by
  unfold joinW at h
  rw [if_neg hdir, if_neg hdir, if_neg (by rw [hb]; simp), if_neg (by rw [hc]; simp)] at h
  have hd := congrArg String.data h
  simp only at hd
  rw [show dir.data ++ '\\' :: b.data = dir.data ++ ('\\' :: b.data) from rfl,
      show dir.data ++ '\\' :: c.data = dir.data ++ ('\\' :: c.data) from rfl,
      mapSlashes_append, mapSlashes_append] at hd
  have h1 := List.append_cancel_left hd
  rw [mapSlashes_cons, mapSlashes_cons] at h1
  injection h1 with _ h2
  exact strExt h2

theorem mkFilename_inj (dir san ts : String) :
    Function.Injective (mkFilename dir san ts) := by
  intro i j h
  unfold mkFilename at h
  by_cases hd : dir.data.isEmpty
  · unfold joinW at h
    rw [if_pos hd, if_pos hd] at h
    exact inner_png_inj h
  · exact msStr_inner_inj
      (joinW_msStr_case hd (inner_png_ne_empty san ts i) (inner_png_ne_empty san ts j) h)

theorem mkFilenameSlashed_inj (dir san ts : String) :
    Function.Injective (fun i => msStr (mkFilename dir san ts i)) := by
  intro i j h
  simp only at h
  unfold mkFilename at h
  by_cases hd : dir.data.isEmpty
  · unfold joinW at h
    rw [if_pos hd, if_pos hd] at h
    exact msStr_inner_inj h
  · unfold joinW at h
    rw [if_neg hd, if_neg hd,
        if_neg (by rw [inner_png_ne_empty san ts i]; simp),
        if_neg (by rw [inner_png_ne_empty san ts j]; simp)] at h
    have hd2 := congrArg String.data h
    simp only [msStr] at hd2
    rw [mapSlashes_idem, mapSlashes_idem] at hd2
    rw [show dir.data ++ '\\' :: (san ++ "-" ++ ts ++ "-" ++ natStr i ++ ".png").data =
          dir.data ++ ('\\' :: (san ++ "-" ++ ts ++ "-" ++ natStr i ++ ".png").data) from rfl,
        show dir.data ++ '\\' :: (san ++ "-" ++ ts ++ "-" ++ natStr j ++ ".png").data =
          dir.data ++ ('\\' :: (san ++ "-" ++ ts ++ "-" ++ natStr j ++ ".png").data) from rfl,
        mapSlashes_append, mapSlashes_append] at hd2
    have h1 := List.append_cancel_left hd2
    rw [mapSlashes_cons, mapSlashes_cons] at h1
    injection h1 with _ h2
    exact msStr_inner_inj (strExt h2)

theorem toLower_fix {c : Char} (h : isLowerAlnum c = true ∨ c = '-') : c.toLower = c := by
  have hn : ¬(c.toNat ≥ 65 ∧ c.toNat ≤ 90) := by
    rcases h with h | h
    · simp only [isLowerAlnum, Bool.or_eq_true, Bool.and_eq_true, decide_eq_true_eq] at h
      omega
    · subst h; decide
  simp only [Char.toLower]
  exact if_neg hn

theorem repl_fix {c : Char} (h : isLowerAlnum c = true ∨ c = '-') :
    (if isLowerAlnum c then c else '-') = c := by
  rcases h with h | h
  · rw [if_pos h]
  · subst h; rfl

theorem sanitize_chars (s : String) :
    ∀ c ∈ (sanitize s).data, isLowerAlnum c = true ∨ c = '-' := by
  intro c hc
  have hc2 := List.take_subset 30 _ hc
  rcases List.mem_map.1 hc2 with ⟨d, _, hd⟩
  by_cases h : isLowerAlnum d
  · rw [if_pos h] at hd; subst hd; exact Or.inl h
  · rw [if_neg h] at hd; exact Or.inr hd.symm

theorem sanitize_length (s : String) : (sanitize s).data.length ≤ 30 := by
  show (((s.data.map Char.toLower).map fun c => if isLowerAlnum c then c else '-').take 30).length ≤ 30
  calc (((s.data.map Char.toLower).map fun c => if isLowerAlnum c then c else '-').take 30).length
      ≤ 30 := List.length_take_le _ _

/-- Claim C5: prompt sanitization (lowercase, replace characters outside
`[a-z0-9]` with `-`, truncate to 30) is idempotent and its output consists
of at most 30 characters drawn from `[a-z0-9-]` (the `^[a-z0-9-]{0,30}$`
regex).  Determinism is inherent: `sanitize` is a pure function of its
argument. -/
theorem claim_C5_sanitize (s : String) :
    sanitize (sanitize s) = sanitize s ∧
    (∀ c ∈ (sanitize s).data, isLowerAlnum c = true ∨ c = '-') ∧
    (sanitize s).data.length ≤ 30 := by
  refine ⟨?_, sanitize_chars s, sanitize_length s⟩
  apply strExt
  show (((sanitize s).data.map Char.toLower).map fun c => if isLowerAlnum c then c else '-').take 30
      = (sanitize s).data
  have hP := sanitize_chars s
  have h1 : (sanitize s).data.map Char.toLower = (sanitize s).data := by
    rw [show (sanitize s).data.map Char.toLower = (sanitize s).data.map Char.toLower from rfl]
    conv_rhs => rw [← List.map_id ((sanitize s).data)]
    apply List.map_congr_left
    intro c hc
    simpa using toLower_fix (hP c hc)
  rw [h1]
  have h2 : ((sanitize s).data.map fun c => if isLowerAlnum c then c else '-') = (sanitize s).data := by
    conv_rhs => rw [← List.map_id ((sanitize s).data)]
    apply List.map_congr_left
    intro c hc
    simpa using repl_fix (hP c hc)
  rw [h2]
  exact List.take_of_length_le (sanitize_length s)

/-- Claim C4, counterexample: profile B's `normalizeFilePath` is not
idempotent.  On `"a///b"` the first pass yields `a\\b` (three backslashes
collapse pairwise to two), and a second pass collapses the remaining pair
to `a\b`. -/
theorem claim_C4_counterexample :
    normalizeFilePathB (normalizeFilePathB "a///b") ≠ normalizeFilePathB "a///b" := by
  decide

/-- Claim C4 (amended): path normalization is idempotent for the desktop
profile's normalizer whenever the configured user-profile base directory
is an absolute Windows path; the temp-staging profile's normalizer is not
idempotent (runs of three or more separators collapse further on a second
application). -/
theorem claim_C4_amended :
    (∀ (up p : String), isAbsW up.data = true →
      normalizeFilePathA up (normalizeFilePathA up p) = normalizeFilePathA up p) ∧
    (∃ p : String, normalizeFilePathB (normalizeFilePathB p) ≠ normalizeFilePathB p) :=
  ⟨fun _ p h => normalizeFilePathA_idem p h, ⟨"x///y", by decide⟩⟩

theorem claim_C4_witness :
    isAbsW ("C:\\Users\\u").data = true ∧
    normalizeFilePathA "C:\\Users\\u" (normalizeFilePathA "C:\\Users\\u" "img.png") =
      normalizeFilePathA "C:\\Users\\u" "img.png" :=
  ⟨by decide, claim_C4_amended.1 "C:\\Users\\u" "img.png" (by decide)⟩

/-- Claim C8: in profile B's normalizer the `file://` scheme is never
stripped — forward slashes are converted to backslashes *before* the
`^file:\/\//` removal step, so that regex can no longer match, and the
output still begins with `file:` followed by a backslash. -/
theorem claim_C8_fileUrl (s : String) :
    ∃ t : String, normalizeFilePathB ("file://" ++ s) = "file:" ++ "\\" ++ t :=
  ⟨⟨collapsePairs (mapSlashes s.data)⟩, rfl⟩

/-- Claim C3: contrary to the spec (and to the comment inside the code of
`getWebPath`, which announces a backslash-to-forward-slash conversion),
the web path is
`file://` glued onto the *backslash* form of the normalized path: the
rendered URL retains every backslash and contains no forward slash after
the scheme. -/
theorem claim_C3_backslashes :
    getWebPath "C:\\Users\\u" "a.png" =
      "file://C:\\Users\\u\\Desktop\\AI-Generated-Images\\a.png" ∧
    '\\' ∈ (getWebPath "C:\\Users\\u" "a.png").data ∧
    '/' ∉ (normalizeFilePathA "C:\\Users\\u" "a.png").data :=
  ⟨by decide, by decide, noSlash_normalizeFilePathA _ _⟩

/-- Claim C1, counterexample: when the service reports a present but
*empty* generated-image collection, `generate_images` does not raise —
`!response.generatedImages` is false for an empty JavaScript array — and
the tool returns a success result with zero files written. -/
theorem claim_C1_counterexample :
    generateImagesB "G:\\images" "fox" "T" 2 (some []) =
      Except.ok ⟨"Successfully generated 0 images", []⟩ := rfl

/-- Claim C1 (amended): if the service reports an *absent* generated-image
collection, both profiles raise a `GenerationError` (an `McpError` whose
message is re-wrapped by the handler's catch) and write zero files; a
present but *empty* collection is not an error — both profiles write zero
files and return a success result reporting 0 images. -/
theorem claim_C1_amended (up cat dir prompt ts : String) (n : Nat) :
    generateImagesB dir prompt ts n none =
      Except.error "Failed to generate images: No images were generated" ∧
    generateImagesA up cat prompt ts n none =
      Except.error "Failed to generate images: No images were generated" ∧
    generateImagesB dir prompt ts n (some []) =
      Except.ok ⟨"Successfully generated 0 images", []⟩ ∧
    generateImagesA up cat prompt ts n (some []) =
      Except.ok ⟨"Successfully generated 0 images on your Windows Desktop in AI-Generated-Images" ++
          (if cat.data.isEmpty then "" else "\\" ++ cat), [],
        ⟨mapSlashes (if cat.data.isEmpty then desktopPathA up
                     else joinW (desktopPathA up) cat).data⟩,
        ⟨mapSlashes (desktopPathA up).data⟩, up⟩ :=
  ⟨rfl, rfl, rfl, rfl⟩

theorem nodup_range_map_inj {f : Nat → String} (k : Nat) (hf : Function.Injective f) :
    ((List.range k).map f).Pairwise (fun a b => a ≠ b) := by
  have : ((List.range k).map f).Nodup := (List.nodup_range k).map hf
  simpa [List.Nodup] using this

/-- Claim C2: for a successful `generate_images` call (valid prompt,
`numberOfImages ∈ [1,4]`, service collection present), in each profile the
file list written equals one filename per service entry carrying a
non-empty payload; each filename is the sanitized prompt, the shared
batch timestamp, and a 1-based index counted over successfully-written
images, with `.png`; no two filenames of one batch collide; and the
result's reported count (interpolated into the message) is the length of
the file list. -/
theorem claim_C2_generate (up cat dir prompt ts : String) (nimg : Nat)
    (h1 : 1 ≤ nimg) (h2 : nimg ≤ 4) (entries : List (Option String)) :
    ∃ filesB filesA : List String,
      filesB = (List.range (countPayload entries)).map
        (fun i => mkFilename dir (sanitize prompt) ts (1 + i)) ∧
      generateImagesB dir prompt ts nimg (some entries) =
        Except.ok ⟨"Successfully generated " ++ natStr filesB.length ++ " images", filesB⟩ ∧
      filesB.length = countPayload entries ∧
      filesB.Pairwise (fun a b => a ≠ b) ∧
      filesA = (List.range (countPayload entries)).map
        (fun i => msStr (mkFilename (if cat.data.isEmpty then desktopPathA up
            else joinW (desktopPathA up) cat) (sanitize prompt) ts (1 + i))) ∧
      generateImagesA up cat prompt ts nimg (some entries) =
        Except.ok ⟨"Successfully generated " ++ natStr filesA.length ++
            " images on your Windows Desktop in AI-Generated-Images" ++
            (if cat.data.isEmpty then "" else "\\" ++ cat), filesA,
          ⟨mapSlashes (if cat.data.isEmpty then desktopPathA up
                       else joinW (desktopPathA up) cat).data⟩,
          ⟨mapSlashes (desktopPathA up).data⟩, up⟩ ∧
      filesA.length = countPayload entries ∧
      filesA.Pairwise (fun a b => a ≠ b) := by
  refine ⟨_, _, rfl, ?_, ?_, ?_, rfl, ?_, ?_, ?_⟩
  · show generateImagesB dir prompt ts nimg (some entries) = _
    simp only [generateImagesB]
    rw [writeImages_fst]
  · simp
  · exact nodup_range_map_inj _ (fun i j h => by
      have := mkFilename_inj dir (sanitize prompt) ts h
      omega)
  · show generateImagesA up cat prompt ts nimg (some entries) = _
    simp only [generateImagesA]
    rw [writeImages_fst]
    rfl
  · simp
  · exact nodup_range_map_inj _ (fun i j h => by
      have := mkFilenameSlashed_inj (if cat.data.isEmpty then desktopPathA up
        else joinW (desktopPathA up) cat) (sanitize prompt) ts h
      omega)

theorem claim_C2_witness :
    1 ≤ 2 ∧ 2 ≤ 4 ∧
    ∃ filesB filesA : List String,
      filesB = (List.range (countPayload [some "x", none, some "", some "y"])).map
        (fun i => mkFilename "G:\\images" (sanitize "A Red Fox") "T" (1 + i)) ∧
      generateImagesB "G:\\images" "A Red Fox" "T" 2 (some [some "x", none, some "", some "y"]) =
        Except.ok ⟨"Successfully generated " ++ natStr filesB.length ++ " images", filesB⟩ ∧
      filesB.length = countPayload [some "x", none, some "", some "y"] ∧
      filesB.Pairwise (fun a b => a ≠ b) ∧
      filesA = (List.range (countPayload [some "x", none, some "", some "y"])).map
        (fun i => msStr (mkFilename (if ("pets" : String).data.isEmpty then desktopPathA "C:\\Users\\u"
            else joinW (desktopPathA "C:\\Users\\u") "pets") (sanitize "A Red Fox") "T" (1 + i))) ∧
      generateImagesA "C:\\Users\\u" "pets" "A Red Fox" "T" 2 (some [some "x", none, some "", some "y"]) =
        Except.ok ⟨"Successfully generated " ++ natStr filesA.length ++
            " images on your Windows Desktop in AI-Generated-Images" ++
            (if ("pets" : String).data.isEmpty then "" else "\\" ++ "pets"), filesA,
          ⟨mapSlashes (if ("pets" : String).data.isEmpty then desktopPathA "C:\\Users\\u"
                       else joinW (desktopPathA "C:\\Users\\u") "pets").data⟩,
          ⟨mapSlashes (desktopPathA "C:\\Users\\u").data⟩, "C:\\Users\\u"⟩ ∧
      filesA.length = countPayload [some "x", none, some "", some "y"] ∧
      filesA.Pairwise (fun a b => a ≠ b) :=
  ⟨by decide, by decide,
    claim_C2_generate "C:\\Users\\u" "pets" "G:\\images" "A Red Fox" "T" 2
      (by decide) (by decide) [some "x", none, some "", some "y"]⟩

/-- Claim C6, counterexample: in the temp-staging profile with
`useTemp = true`, a missing source file makes the whole `create_image_html`
invocation fail — `fs.copyFileSync` throws, `Promise.all` rejects, and the
handler's catch re-wraps the error. -/
theorem claim_C6_counterexample :
    createImageHtmlB (fun _ => false) "T" ["a.png"] 512 512 true =
      Except.error
        "Failed to create HTML: ENOENT: no such file or directory, copyfile a.png" := rfl

/-- Claim C6 (amended): in the desktop profile a missing source file only
produces a warning and the path is still rendered (the html is the same
as if every file existed); in the temp-staging profile with
`useTemp = false` there is no existence check and rendering always
succeeds; but with `useTemp = true` a missing source file fails the whole
invocation with a `RenderError` from the copy step. -/
theorem claim_C6_amended (up td p : String) (fsEx : String → Bool)
    (ps rest : List String) (w h : Nat) (g : Bool) :
    (createImageHtmlA up fsEx ps w h g).html =
      (createImageHtmlA up (fun _ => true) ps w h g).html ∧
    (createImageHtmlA up fsEx ps w h g).warnings = ps.filterMap (fun q =>
      let abs := normalizeFilePathA up q
      if fsEx abs then none else some ("Warning: Image file not found: " ++ abs)) ∧
    (∃ r, createImageHtmlB fsEx td ps w h false = Except.ok r) ∧
    (fsEx (normalizeFilePathB p) = false →
      createImageHtmlB fsEx td (p :: rest) w h true =
        Except.error ("Failed to create HTML: ENOENT: no such file or directory, copyfile " ++
          normalizeFilePathB p)) := by
  refine ⟨rfl, rfl, ⟨_, rfl⟩, fun hp => ?_⟩
  have hcopy : copyToTemp fsEx td (normalizeFilePathB p) =
      Except.error ("ENOENT: no such file or directory, copyfile " ++ normalizeFilePathB p) := by
    unfold copyToTemp
    rw [hp]
    simp
  have hmap : (p :: rest).mapM (fun q => copyToTemp fsEx td (normalizeFilePathB q)) =
      Except.error ("ENOENT: no such file or directory, copyfile " ++ normalizeFilePathB p) := by
    rw [List.mapM_cons, hcopy]
    rfl
  unfold createImageHtmlB
  rw [hmap]
  rfl

theorem claim_C6_witness :
    ((fun (_ : String) => false) (normalizeFilePathB "a.png") = false) ∧
    createImageHtmlB (fun _ => false) "TMP" ("a.png" :: []) 512 512 true =
      Except.error ("Failed to create HTML: ENOENT: no such file or directory, copyfile " ++
        normalizeFilePathB "a.png") :=
  ⟨rfl, (claim_C6_amended "C:\\Users\\u" "TMP" "a.png" (fun _ => false) [] [] 512 512 true).2.2.2 rfl⟩

set_option maxHeartbeats 1000000 in
/-- Claim C7: rendering `["a.png", "b.png"]` with `gallery = false` and
`width = height = 512` yields exactly two `<img>` tags — one per input, in
input order, joined by a single newline — each carrying
`width="512" height="512"` and a `file://`-prefixed `src` built from the
normalized path (the handler normalizes, then `getWebPath` normalizes once
more; the final conjunct shows the two coincide when the base is
absolute).  The last string conjunct evaluates the whole render at a
concrete absolute profile. -/
theorem claim_C7_plainTags (up : String) (fsEx : String → Bool) :
    (createImageHtmlA up fsEx ["a.png", "b.png"] 512 512 false).html =
      imgTagPlain 512 512 (getWebPath up (normalizeFilePathA up "a.png")) ++ "\n" ++
      imgTagPlain 512 512 (getWebPath up (normalizeFilePathA up "b.png")) ∧
    (∀ wp : String, imgTagPlain 512 512 wp =
      "<img src=\"" ++ wp ++
        "\" width=\"512\" height=\"512\" alt=\"Generated image\" style=\"margin: 10px;\" />") ∧
    (createImageHtmlA "C:\\Users\\u" (fun _ => true) ["a.png", "b.png"] 512 512 false).html =
      "<img src=\"file://C:\\Users\\u\\Desktop\\AI-Generated-Images\\a.png\" width=\"512\" height=\"512\" alt=\"Generated image\" style=\"margin: 10px;\" />\n<img src=\"file://C:\\Users\\u\\Desktop\\AI-Generated-Images\\b.png\" width=\"512\" height=\"512\" alt=\"Generated image\" style=\"margin: 10px;\" />" ∧
    (isAbsW up.data = true →
      normalizeFilePathA up (normalizeFilePathA up "a.png") = normalizeFilePathA up "a.png" ∧
      normalizeFilePathA up (normalizeFilePathA up "b.png") = normalizeFilePathA up "b.png") := by
  refine ⟨rfl, fun wp => ?_, by decide,
    fun h => ⟨normalizeFilePathA_idem _ h, normalizeFilePathA_idem _ h⟩⟩
  apply strExt
  simp only [imgTagPlain, strData_append, List.append_assoc]
  simp
  rfl

theorem claim_C7_witness :
    isAbsW ("C:\\Users\\u").data = true ∧
    (normalizeFilePathA "C:\\Users\\u" (normalizeFilePathA "C:\\Users\\u" "a.png") =
       normalizeFilePathA "C:\\Users\\u" "a.png" ∧
     normalizeFilePathA "C:\\Users\\u" (normalizeFilePathA "C:\\Users\\u" "b.png") =
       normalizeFilePathA "C:\\Users\\u" "b.png") :=
  ⟨by decide, (claim_C7_plainTags "C:\\Users\\u" (fun _ => true)).2.2.2 (by decide)⟩

/-- Claim C9: an empty `imagePaths` list is accepted without error by
`create_image_html` in both profiles: the joined image-tag string is
empty, the invocation succeeds, and the message reports 0 images
(profile A renders the empty gallery shell around the empty join). -/
theorem claim_C9_emptyList (up td : String) (fsExA fsExB : String → Bool)
    (w h w2 h2 : Nat) (g useT : Bool) :
    htmlTagsA up w h g [] = [] ∧
    strJoin "\n" (htmlTagsA up w h g []) = "" ∧
    (createImageHtmlA up fsExA [] w h g).message = "Created HTML gallery with 0 images" ∧
    (createImageHtmlA up fsExA [] w h true).html =
      galleryStyleStr w h ++ "<div class=\"image-gallery\"></div>" ∧
    (createImageHtmlA up fsExA [] w h false).html = "" ∧
    createImageHtmlB fsExB td [] w2 h2 useT =
      Except.ok ⟨"", "Created HTML tags for 0 images", []⟩ := by
  refine ⟨rfl, rfl, rfl, ?_, rfl, ?_⟩
  · have h0 : (createImageHtmlA up fsExA [] w h true).html =
        galleryStyleStr w h ++ "<div class=\"image-gallery\">" ++ "" ++ "</div>" := rfl
    rw [h0]
    apply strExt
    simp only [strData_append, List.append_assoc]
    simp
  · cases useT <;> rfl

set_option maxHeartbeats 1000000 in
/-- Claim C10: in the gallery profile (`gallery = true`) every per-image
tag is the fixed template `galleryItemPre ++ webPath ++ galleryItemMid`,
whose constant parts contain no `width=` or `height=` attribute (only
`src`, `alt` and `loading="lazy"`); the requested width and height are
rendered only inside the shared `<style>` block, whose single `width:`
(resp. `height:`) property occurrence lies after the
`.image-container img` rule opener (the decomposition of `sty1` below
places the interpolated value directly after `width: ` inside that rule). -/
theorem claim_C10_galleryAttrs (up : String) (ps : List String) (w h : Nat) :
    htmlTagsA up w h true ps = ps.map (fun p =>
      galleryItemPre ++ getWebPath up (normalizeFilePathA up p) ++ galleryItemMid) ∧
    occCount "width=".data galleryItemPre.data = 0 ∧
    occCount "width=".data galleryItemMid.data = 0 ∧
    occCount "height=".data galleryItemPre.data = 0 ∧
    occCount "height=".data galleryItemMid.data = 0 ∧
    occCount "src=\"".data galleryItemPre.data = 1 ∧
    occCount "alt=\"Generated image\"".data galleryItemMid.data = 1 ∧
    occCount "loading=\"lazy\"".data galleryItemMid.data = 1 ∧
    galleryStyleStr w h = sty1 ++ natStr w ++ sty2 ++ natStr h ++ sty3 ∧
    occCount "width:".data (galleryStyleStr 512 512).data = 1 ∧
    occCount "height:".data (galleryStyleStr 512 512).data = 1 ∧
    (∃ t : String,
      sty1 = t ++ ".image-container img \x7b\n            display: block;\n            width: " ∧
      occCount "width:".data t.data = 0 ∧ occCount "height:".data t.data = 0) :=
  ⟨rfl, by decide, by decide, by decide, by decide, by decide, by decide, by decide, rfl,
    by decide, by decide,
    ⟨"\n        <style>\n          .image-gallery \x7b\n            display: flex;\n            flex-wrap: wrap;\n            gap: 20px;\n            justify-content: center;\n            padding: 20px;\n          \x7d\n          .image-container \x7b\n            box-shadow: 0 4px 8px rgba(0,0,0,0.1);\n            border-radius: 8px;\n            overflow: hidden;\n            transition: transform 0.3s ease;\n          \x7d\n          .image-container:hover \x7b\n            transform: scale(1.05);\n          \x7d\n          ",
      by decide, by decide, by decide⟩⟩
